import Mathlib

/-!
Shallow embedding of the FitForge cycle/session core: the exercise
classifier, the workout template catalog, the session completion check,
the client-side and backend cycle trackers, the RPE trend computation and
the analysis-response parser, with theorems checking the specification's
claims against them.
-/

namespace FitForge

/-! ### JavaScript-style helpers

`jsIncludes s sub` mirrors `s.includes(sub)` on JS strings (substring
containment).  `jsTruthyStr` mirrors JS truthiness of the string-valued
input fields (empty string is falsy), `jsTruthyNum` mirrors JS truthiness
of an optional numeric object entry (`undefined` and `0` are falsy). -/

def jsIncludesAux (sub : List Char) : List Char → Bool
  | [] => sub.isEmpty
  | c :: rest => sub.isPrefixOf (c :: rest) || jsIncludesAux sub rest

def jsIncludes (s sub : String) : Bool :=
  jsIncludesAux sub.toList s.toList

def jsTruthyStr (s : String) : Bool :=
  !s.isEmpty

def jsTruthyNum : Option Nat → Bool
  | none => false
  | some v => v != 0

/-! ### Exercise classifier (WorkoutTracker.jsx, `getExerciseType`) -/

inductive ExerciseType where
  | weighted_duration
  | duration
  | bodyweight
  | weighted
deriving DecidableEq, Repr

def WEIGHTED_DURATION_EXERCISES : List String :=
  ["Kettlebell Farmer\x27s March",
   "Kettlebell Suitcase Carry",
   "Farmer\x27s Walk",
   "Farmer\x27s Carry",
   "Suitcase Carry",
   "Overhead Carry",
   "Waiter\x27s Walk"]

def DURATION_BASED_EXERCISES : List String :=
  ["Plank",
   "TRX Plank Saw",
   "Wall Sit",
   "Dead Hang",
   "L-Sit",
   "Hollow Body Hold",
   "Flutter Kicks",
   "Mountain Climbers"]

def BODYWEIGHT_EXERCISES : List String :=
  ["Pull-Ups",
   "Push-Ups",
   "TRX Push-Ups",
   "Ring Dips",
   "Dips",
   "Hanging Leg Raises",
   "Dead Bug",
   "Bird Dog",
   "Russian Twists",
   "TRX Pike",
   "TRX Oblique Crunches",
   "TRX Tricep Extensions",
   "Neutral Grip Pull-ups",
   "Air Squats",
   "Burpees",
   "Box Jumps"]

def getExerciseType (exerciseName : String) : ExerciseType :=
  if WEIGHTED_DURATION_EXERCISES.any (fun ex => jsIncludes exerciseName ex) then
    .weighted_duration
  else if DURATION_BASED_EXERCISES.any (fun ex => jsIncludes exerciseName ex) then
    .duration
  else if BODYWEIGHT_EXERCISES.any (fun ex => jsIncludes exerciseName ex) then
    .bodyweight
  else
    .weighted

/-! ### Workout template catalog (WorkoutTracker.jsx, `DEFAULT_TEMPLATES`) -/

structure ExerciseSpec where
  name : String
  sets : Nat
  targetReps : String
  restTime : Nat
deriving DecidableEq, Repr

structure WorkoutTemplate where
  key : String
  title : String
  mandatory : Bool
  exercises : List ExerciseSpec
deriving DecidableEq, Repr

def DEFAULT_TEMPLATES : List WorkoutTemplate :=
  [{ key := "A_push_power",
     title := "Workout A: Push Day (Strength & Power)",
     mandatory := true,
     exercises :=
       [⟨"Barbell Bench Press", 4, "5", 120⟩,
        ⟨"Standing Overhead Press", 4, "5", 90⟩,
        ⟨"Incline Dumbbell Press", 3, "8-12", 90⟩,
        ⟨"Dumbbell Lateral Raises", 3, "15-20", 60⟩,
        ⟨"Ring Dips", 3, "To Failure", 90⟩,
        ⟨"TRX Plank Saw", 3, "30-45 sec", 60⟩,
        ⟨"Kettlebell Farmer\x27s March", 3, "30-45 sec", 60⟩] },
   { key := "A_pull_width",
     title := "Workout A: Pull Day (Width & Thickness)",
     mandatory := true,
     exercises :=
       [⟨"Pull-Ups", 4, "To Failure", 120⟩,
        ⟨"Bent-Over Barbell Row", 4, "5-8", 90⟩,
        ⟨"Single-Arm Dumbbell Row", 3, "8-12 per arm", 60⟩,
        ⟨"Banded Face Pulls", 3, "15-20", 60⟩,
        ⟨"Dumbbell Hammer Curls", 3, "8-12", 60⟩,
        ⟨"TRX Pike", 3, "10-15", 60⟩,
        ⟨"Kettlebell Goblet Squat", 3, "10-12", 90⟩] },
   { key := "B_push_hyp",
     title := "Workout B: Push Day (Hypertrophy & Definition)",
     mandatory := true,
     exercises :=
       [⟨"Seated Dumbbell Press", 4, "8-12", 90⟩,
        ⟨"TRX Push-Ups", 3, "To Failure", 60⟩,
        ⟨"Dumbbell Flyes", 3, "12-15", 60⟩,
        ⟨"Bent-Over Rear Delt Flyes", 3, "15-20", 60⟩,
        ⟨"TRX Tricep Extensions", 3, "12-15", 60⟩,
        ⟨"TRX Oblique Crunches", 3, "10-12 per side", 60⟩,
        ⟨"Kettlebell Swings", 3, "15-20", 90⟩] },
   { key := "B_pull_strength",
     title := "Workout B: Pull Day (Strength & Function)",
     mandatory := true,
     exercises :=
       [⟨"Barbell Deadlift", 4, "5", 180⟩,
        ⟨"T-Bar Row", 4, "8-10", 90⟩,
        ⟨"Neutral Grip Pull-ups", 3, "To Failure", 90⟩,
        ⟨"Dumbbell Shrugs", 3, "12-15", 60⟩,
        ⟨"Kettlebell Bicep Curls", 3, "10-15", 60⟩,
        ⟨"TRX Hamstring Runners", 3, "10-15", 60⟩,
        ⟨"Kettlebell Suitcase Carry", 3, "30 sec per side", 60⟩] },
   { key := "C_leg_day",
     title := "Workout C: Leg Day (Foundation & Power)",
     mandatory := true,
     exercises :=
       [⟨"Barbell Back Squat", 4, "6-8", 180⟩,
        ⟨"Dumbbell Lunges", 3, "10-12 per leg", 90⟩,
        ⟨"Kettlebell Swings", 4, "15-20", 90⟩,
        ⟨"Kettlebell Goblet Squat", 3, "10-12", 90⟩,
        ⟨"Box Jumps", 3, "5", 120⟩] },
   { key := "D_core_circuit",
     title := "Workout D: Core Overload Circuit",
     mandatory := true,
     exercises :=
       [⟨"TRX Knee Tucks", 3, "15", 90⟩,
        ⟨"Barbell Landmine Anti-Rotation", 3, "10 per side", 90⟩,
        ⟨"Medicine Ball Slams", 3, "12", 90⟩,
        ⟨"BOSU Ball Plank", 3, "45 sec", 90⟩,
        ⟨"Kettlebell Suitcase Carry", 3, "30 sec per side", 90⟩] },
   { key := "optional_core_activation",
     title := "Optional: Core Activation & Full Body Stretch",
     mandatory := false,
     exercises :=
       [⟨"Dead Bug", 2, "10 per side", 45⟩,
        ⟨"Bird Dog", 2, "10 per side", 45⟩,
        ⟨"Plank", 2, "45-60 sec", 60⟩,
        ⟨"Wall Sit", 2, "30-60 sec", 60⟩,
        ⟨"Mountain Climbers", 2, "30 sec", 45⟩] }]

/-! ### Session set records and completion

`SetRecord` holds the raw string values of the three input fields, as the
React component stores them.  `isSetComplete` is the per-tracking-type set
completeness rule of `ExerciseRow` (WorkoutTracker.jsx lines 895-905).
`workoutCompleteCheck` is the whole-workout completion effect
(WorkoutTracker.jsx lines 1362-1375), which counts a set as complete only
when `weight` and `reps` are both truthy, for every exercise type.
`perTypeWorkoutComplete` is the same predicate with the per-type
`isSetComplete` rule substituted for the set-counting step; this is the
predicate the specification describes. -/

structure SetRecord where
  weight : String := ""
  reps : String := ""
  duration : String := ""
deriving DecidableEq, Repr

def isSetComplete (t : ExerciseType) (s : SetRecord) : Bool :=
  match t with
  | .weighted_duration => jsTruthyStr s.weight && jsTruthyStr s.duration
  | .duration => jsTruthyStr s.duration
  | .bodyweight => jsTruthyStr s.weight && jsTruthyStr s.reps
  | .weighted => jsTruthyStr s.weight && jsTruthyStr s.reps

def workoutCompleteCheck (tmpl : WorkoutTemplate) (workoutData : String → List SetRecord)
    (exerciseRPEs : String → Option Nat) (skippedExercises : List String) : Bool :=
  (tmpl.exercises.all fun ex =>
    decide (((workoutData ex.name).filter fun s =>
        jsTruthyStr s.weight && jsTruthyStr s.reps).length = ex.sets)
      || skippedExercises.contains ex.name)
  &&
  (tmpl.exercises.all fun ex =>
    jsTruthyNum (exerciseRPEs ex.name) || skippedExercises.contains ex.name)

def perTypeWorkoutComplete (tmpl : WorkoutTemplate) (workoutData : String → List SetRecord)
    (exerciseRPEs : String → Option Nat) (skippedExercises : List String) : Bool :=
  (tmpl.exercises.all fun ex =>
    decide (((workoutData ex.name).filter
        (isSetComplete (getExerciseType ex.name))).length = ex.sets)
      || skippedExercises.contains ex.name)
  &&
  (tmpl.exercises.all fun ex =>
    jsTruthyNum (exerciseRPEs ex.name) || skippedExercises.contains ex.name)

/-! ### RPE trend computation (claudeAnalysis.js, `calculateTrend`) -/

inductive Trend where
  | increasing
  | decreasing
  | stable
deriving DecidableEq, Repr

def calculateTrend (values : List ℚ) : Trend :=
  if values.length < 2 then .stable
  else
    let firstHalf := values.take (values.length / 2)
    let secondHalf := values.drop (values.length / 2)
    let firstAvg := firstHalf.sum / (firstHalf.length : ℚ)
    let secondAvg := secondHalf.sum / (secondHalf.length : ℚ)
    if secondAvg - firstAvg > 1/2 then .increasing
    else if firstAvg - secondAvg > 1/2 then .decreasing
    else .stable

def mean (l : List ℚ) : ℚ := l.sum / (l.length : ℚ)

/-! ### Client-side cycle tracker (WorkoutTracker.jsx, cycle completion effect)

The persisted state is the `current_cycle` localStorage record.
`includedPred` is the selection predicate: a mandatory template is included
unless `includeInAnalysis[key] === false`, an optional one only if
`includeInAnalysis[key] === true`.  `selectedOf` computes the selected
workout keys.  `applySelectionChange` is the selection-change reset
(lines 1395-1404, value comparison via JSON stringification of the key
lists).  `cycleStepKey` is one run of the effect for a completed included
workout with key `k`; the returned Bool is the `CycleClosed` event (the
cycle-complete branch).  If the key is already recorded, nothing is
written back.  `cycleEffect` adds the `isIncluded` guard of the effect,
and `runCycle` chains completions, counting emitted events. -/

structure CycleLS where
  completed : List String
  selectedWorkouts : List String
deriving DecidableEq, Repr

def includedPred (includeInAnalysis : String → Option Bool) (t : WorkoutTemplate) : Bool :=
  (t.mandatory && !(includeInAnalysis t.key == some false)) ||
  (!t.mandatory && (includeInAnalysis t.key == some true))

def selectedOf (templates : List WorkoutTemplate)
    (includeInAnalysis : String → Option Bool) : List String :=
  (templates.filter (includedPred includeInAnalysis)).map (·.key)

def applySelectionChange (sel : List String) (cur : CycleLS) : CycleLS :=
  if cur.selectedWorkouts = sel then cur else ⟨[], sel⟩

def cycleStepKey (sel : List String) (k : String) (stored : Option CycleLS) :
    Option CycleLS × Bool :=
  let cur := stored.getD ⟨[], sel⟩
  let cur1 := applySelectionChange sel cur
  if k ∈ cur1.completed then (stored, false)
  else
    let completed := cur1.completed ++ [k]
    if (∀ x ∈ sel, x ∈ completed) ∧ sel ≠ [] then
      (some ⟨[], sel⟩, true)
    else
      (some ⟨completed, cur1.selectedWorkouts⟩, false)

def cycleEffect (templates : List WorkoutTemplate)
    (includeInAnalysis : String → Option Bool) (tmpl : WorkoutTemplate)
    (stored : Option CycleLS) : Option CycleLS × Bool :=
  if includedPred includeInAnalysis tmpl then
    cycleStepKey (selectedOf templates includeInAnalysis) tmpl.key stored
  else
    (stored, false)

def runCycle (sel : List String) : List String → Option CycleLS → Option CycleLS × Nat
  | [], st => (st, 0)
  | k :: rest, st =>
    let step := cycleStepKey sel k st
    let next := runCycle sel rest step.1
    (next.1, (if step.2 then 1 else 0) + next.2)

def defaultIncludeInAnalysis (templates : List WorkoutTemplate) : String → Option Bool :=
  fun k => (templates.find? (fun t => t.key == k)).map (·.mandatory)

/-! ### Backend cycle tracker (dynamoService `WorkoutService`, workoutAPI.js)

`BackendCycle` is the `CYCLE#CURRENT` item, initialized by
`ItemSchemas.currentCycle`.  `mandatoryWorkouts` is the hardcoded list
used both by `WorkoutService.updateCycleProgress` and by the API's
`checkCycleCompletion`.  `Db` collects the store rows the core touches;
`updateCycleProgressDb` mirrors `updateCycleProgress` (duplicate guard,
remaining-workout filtering, archive-and-reset on completion),
`saveWorkoutSvc` mirrors `WorkoutService.saveWorkout`, and
`postWorkouts` mirrors the `POST /workouts` handler with the external
analysis call abstracted as a function of the store contents. -/

structure BackendCycle where
  cycleNumber : Nat
  completedWorkouts : List String
  remainingWorkouts : List String
deriving DecidableEq, Repr

def mandatoryWorkouts : List String :=
  ["A_push_power", "A_pull_width", "B_push_hyp", "B_pull_strength"]

def currentCycleItem (cycleNumber : Nat) : BackendCycle :=
  ⟨cycleNumber, [], ["A_push_power", "A_pull_width", "B_push_hyp", "B_pull_strength"]⟩

def checkCycleCompletion (currentCycle : BackendCycle) : Bool :=
  mandatoryWorkouts.all (fun w => currentCycle.completedWorkouts.contains w)

structure WorkoutItem where
  date : String
  templateKey : String
  bodyweight : String
  sessionNotes : String
  exercises : List (String × List SetRecord)
  exerciseRPEs : List (String × Nat)
  isOptional : Bool
  completed : Bool
deriving DecidableEq, Repr

structure AnalysisPayload where
  raw : String
  exerciseRecommendations : Option (List (String × String))
deriving DecidableEq, Repr

structure Db where
  workouts : List WorkoutItem
  currentCycle : Option BackendCycle
  cycleArchives : List (Nat × List String)
  analyses : List (Nat × String)
  suggestions : Option (Nat × List (String × String))
deriving DecidableEq, Repr

def getCurrentCycleDb (db : Db) : Db × BackendCycle :=
  match db.currentCycle with
  | some cyc => (db, cyc)
  | none =>
    let fresh := currentCycleItem 1
    ({ db with currentCycle := some fresh }, fresh)

def updateCycleProgressDb (db : Db) (templateKey : String) : Db × Bool :=
  let read := getCurrentCycleDb db
  let db1 := read.1
  let cyc := read.2
  if templateKey ∈ cyc.completedWorkouts then (db1, false)
  else
    let completed := cyc.completedWorkouts ++ [templateKey]
    let remaining := cyc.remainingWorkouts.filter (fun w => w ≠ templateKey)
    if mandatoryWorkouts.all (fun w => completed.contains w) then
      ({ db1 with
          cycleArchives := (cyc.cycleNumber, completed) :: db1.cycleArchives,
          currentCycle := some (currentCycleItem (cyc.cycleNumber + 1)) }, true)
    else
      ({ db1 with
          currentCycle := some { cyc with
            completedWorkouts := completed, remainingWorkouts := remaining } }, false)

structure SaveWorkoutRequest where
  templateKey : String
  date : String
  bodyweight : String
  notes : String
  exercises : List (String × List SetRecord)
  exerciseRPEs : List (String × Nat)
  isOptional : Bool
deriving DecidableEq, Repr

def mkWorkoutItem (req : SaveWorkoutRequest) : WorkoutItem :=
  { date := req.date
    templateKey := req.templateKey
    bodyweight := req.bodyweight
    sessionNotes := req.notes
    exercises := req.exercises
    exerciseRPEs := req.exerciseRPEs
    isOptional := req.isOptional
    completed := true }

def saveWorkoutSvc (db : Db) (req : SaveWorkoutRequest) : Db :=
  let db1 := { db with workouts := mkWorkoutItem req :: db.workouts }
  if req.isOptional then db1
  else (updateCycleProgressDb db1 req.templateKey).1

def saveAnalysisResultsDb (db : Db) (cycleNumber : Nat) (analysis : AnalysisPayload) : Db :=
  let db1 := { db with analyses := (cycleNumber, analysis.raw) :: db.analyses }
  match analysis.exerciseRecommendations with
  | some recs => { db1 with suggestions := some (cycleNumber, recs) }
  | none => db1

def postWorkouts (analyze : Db → AnalysisPayload) (db : Db)
    (req : SaveWorkoutRequest) : Db × Bool :=
  let db1 := saveWorkoutSvc db req
  if req.isOptional then (db1, false)
  else
    let read := getCurrentCycleDb db1
    if checkCycleCompletion read.2 then
      (saveAnalysisResultsDb read.1 read.2.cycleNumber (analyze read.1), true)
    else
      (read.1, false)

/-! ### Analysis response parsing (claudeAnalysis.js, `parseClaudeResponse`)

The regex extraction and `JSON.parse` are external: `jsonMatch` models
`responseText.match(/\x7b[\s\S]*\x7d/)` and `parseJson` models
`JSON.parse` with `none` for a thrown parse error.  The surrounding
try/catch makes the function total: on any parse failure it returns the
fixed degraded record with the raw response preserved. -/

structure DegradedAssessment where
  fatigue_level : String
  progress_rate : String
  summary : String
deriving DecidableEq, Repr

structure DegradedAnalysis where
  overall_assessment : DegradedAssessment
  raw_response : String
  error : String
deriving DecidableEq, Repr

inductive ParseOutcome (α : Type) where
  | parsed : α → ParseOutcome α
  | degraded : DegradedAnalysis → ParseOutcome α
deriving DecidableEq, Repr

def degradedResult (responseText : String) : DegradedAnalysis :=
  { overall_assessment :=
      { fatigue_level := "moderate"
        progress_rate := "optimal"
        summary := "Analysis completed but response parsing failed" }
    raw_response := responseText
    error := "Failed to parse structured response" }

def parseClaudeResponse {α : Type} (jsonMatch : String → Option String)
    (parseJson : String → Option α) (responseText : String) : ParseOutcome α :=
  match jsonMatch responseText with
  | some extracted =>
    match parseJson extracted with
    | some a => .parsed a
    | none => .degraded (degradedResult responseText)
  | none =>
    match parseJson responseText with
    | some a => .parsed a
    | none => .degraded (degradedResult responseText)

/-! ### Concrete session data used to compare the two completion predicates -/

def templateA : WorkoutTemplate := DEFAULT_TEMPLATES.get ⟨0, by decide⟩

def c1WorkoutData : String → List SetRecord := fun name =>
  if name = "Barbell Bench Press" then List.replicate 4 ⟨"135", "5", ""⟩
  else if name = "Standing Overhead Press" then List.replicate 4 ⟨"95", "5", ""⟩
  else if name = "Incline Dumbbell Press" then List.replicate 3 ⟨"50", "10", ""⟩
  else if name = "Dumbbell Lateral Raises" then List.replicate 3 ⟨"15", "15", ""⟩
  else if name = "Ring Dips" then List.replicate 3 ⟨"180", "8", ""⟩
  else if name = "TRX Plank Saw" then List.replicate 3 ⟨"", "", "40"⟩
  else if name = "Kettlebell Farmer\x27s March" then List.replicate 3 ⟨"53", "", "30"⟩
  else []

def c1RPEs : String → Option Nat := fun name =>
  if (templateA.exercises.map (·.name)).contains name then some 8 else none

/-! ### Invariant of the client cycle state and helper lemmas -/

def cycleInv : Option CycleLS → Prop
  | none => True
  | some st => ∀ x ∈ st.completed, x ∈ st.selectedWorkouts

lemma key_mem_selectedOf {templates : List WorkoutTemplate}
    {includeMap : String → Option Bool} {tmpl : WorkoutTemplate}
    (ht : tmpl ∈ templates) (hinc : includedPred includeMap tmpl = true) :
    tmpl.key ∈ selectedOf templates includeMap := by
  unfold selectedOf
  exact List.mem_map_of_mem _ (List.mem_filter.mpr ⟨ht, hinc⟩)

lemma cycleStepKey_same_sel (sel : List String) (k : String) (st : CycleLS)
    (h : st.selectedWorkouts = sel) :
    cycleStepKey sel k (some st) =
      if k ∈ st.completed then (some st, false)
      else if (∀ x ∈ sel, x ∈ st.completed ++ [k]) ∧ sel ≠ [] then
        (some ⟨[], sel⟩, true)
      else (some ⟨st.completed ++ [k], sel⟩, false) := by
  unfold cycleStepKey applySelectionChange
  simp [h]

lemma runCycle_cons (sel : List String) (k : String) (rest : List String)
    (st : Option CycleLS) :
    runCycle sel (k :: rest) st =
      ((runCycle sel rest (cycleStepKey sel k st).1).1,
       (if (cycleStepKey sel k st).2 then 1 else 0) +
         (runCycle sel rest (cycleStepKey sel k st).1).2) := by
  rfl

lemma runCycle_pending (sel : List String) (hnd : sel.Nodup) :
    ∀ (pending done : List String), done ++ pending = sel → pending ≠ [] →
      runCycle sel pending (some ⟨done, sel⟩) = (some ⟨[], sel⟩, 1) := by
  intro pending
  induction pending with
  | nil => intro done _ hne; exact absurd rfl hne
  | cons k rest ih =>
    intro done hsplit hne
    have hnd' : (done ++ k :: rest).Nodup := hsplit ▸ hnd
    rw [List.nodup_append] at hnd'
    obtain ⟨hd, hkr, hdisj⟩ := hnd'
    have hk_not_done : k ∉ done := fun hmem => hdisj hmem (List.mem_cons_self k rest)
    have hstep := cycleStepKey_same_sel sel k ⟨done, sel⟩ rfl
    simp only at hstep
    rw [runCycle_cons]
    cases rest with
    | nil =>
      have hall : (∀ x ∈ sel, x ∈ done ++ [k]) ∧ sel ≠ [] := by
        constructor
        · intro x hx
          rw [← hsplit] at hx
          simpa using hx
        · rw [← hsplit]; simp
      rw [if_neg hk_not_done, if_pos hall] at hstep
      rw [hstep]
      simp [runCycle]
    | cons r rs =>
      have hr_sel : r ∈ sel := by rw [← hsplit]; simp
      have hr_not : r ∉ done ++ [k] := by
        intro hmem
        rcases List.mem_append.mp hmem with hmem | hmem
        · exact hdisj hmem (by simp)
        · simp only [List.mem_singleton] at hmem
          have hknot : k ∉ (r :: rs) := (List.nodup_cons.mp hkr).1
          exact hknot (hmem ▸ List.mem_cons_self r rs)
      have hnall : ¬ ((∀ x ∈ sel, x ∈ done ++ [k]) ∧ sel ≠ []) := by
        intro hall
        exact hr_not (hall.1 r hr_sel)
      rw [if_neg hk_not_done, if_neg hnall] at hstep
      rw [hstep]
      simp only
      have hrec := ih (done ++ [k]) (by rw [List.append_assoc]; simpa using hsplit) (by simp)
      rw [hrec]
      simp

lemma calculateTrend_eq (values : List ℚ) :
    calculateTrend values =
      if values.length < 2 then .stable
      else if 1/2 < mean (values.drop (values.length / 2)) -
          mean (values.take (values.length / 2)) then .increasing
      else if 1/2 < mean (values.take (values.length / 2)) -
          mean (values.drop (values.length / 2)) then .decreasing
      else .stable := rfl

/-! ## Claim theorems -/

/-- Claim C1: the spec says a workout session is complete exactly when every
exercise is skipped or has all of its target sets complete by the per-type
rule (Duration: durationSeconds present; WeightedDuration: weight and
durationSeconds present), plus an RPE entry per non-skipped exercise.  The
completion effect instead counts a set complete only when weight and reps
are both present, for every tracking type, so a session whose duration-type
sets are filled per the per-type rule is judged incomplete by the code.
Exhibited on template `A_push_power`, every set filled per the per-type
rule and every RPE recorded: the effect returns false while the per-type
predicate returns true. -/
theorem completion_ignores_duration_rule :
    workoutCompleteCheck templateA c1WorkoutData c1RPEs [] = false ∧
    perTypeWorkoutComplete templateA c1WorkoutData c1RPEs [] = true ∧
    templateA ∈ DEFAULT_TEMPLATES ∧ templateA.key = "A_push_power" := by
  refine ⟨by decide, by decide, by decide, by decide⟩

/-- Claim C2: starting a fresh cycle with a duplicate-free non-empty selected
list and completing the selected workouts one by one triggers exactly one
cycle-closed event, after which completedWorkoutKeys is empty and
selectedWorkoutKeys is unchanged; moreover the event fires only when the
completed keys equal the selected keys as sets. -/
theorem cycle_closes_exactly_once :
    ∀ (sel : List String), sel.Nodup → sel ≠ [] →
      runCycle sel sel (some ⟨[], sel⟩) = (some ⟨[], sel⟩, 1) ∧
      (∀ (k : String) (st : CycleLS),
        st.selectedWorkouts = sel →
        (∀ x ∈ st.completed, x ∈ sel) → k ∈ sel →
        (cycleStepKey sel k (some st)).2 = true →
          ∀ x, x ∈ st.completed ++ [k] ↔ x ∈ sel) := by
  intro sel hnd hne
  constructor
  · exact runCycle_pending sel hnd sel [] rfl hne
  · intro k st hsel hsub hk hev x
    have hstep := cycleStepKey_same_sel sel k st hsel
    constructor
    · intro hx
      rcases List.mem_append.mp hx with h | h
      · exact hsub x h
      · simp only [List.mem_singleton] at h; subst h; exact hk
    · intro hx
      by_cases hdup : k ∈ st.completed
      · rw [hstep] at hev
        rw [if_pos hdup] at hev
        simp at hev
      · rw [hstep, if_neg hdup] at hev
        by_cases hall : (∀ x ∈ sel, x ∈ st.completed ++ [k]) ∧ sel ≠ []
        · exact hall.1 x hx
        · rw [if_neg hall] at hev
          simp at hev

/-- Claim C2 witness: completing A_push_power, B_push_hyp, C_leg_day in order
with exactly those keys selected yields exactly one closure and a reset
state with the selection unchanged. -/
theorem cycle_closes_witness :
    runCycle ["A_push_power", "B_push_hyp", "C_leg_day"]
        ["A_push_power", "B_push_hyp", "C_leg_day"]
        (some ⟨[], ["A_push_power", "B_push_hyp", "C_leg_day"]⟩) =
      (some ⟨[], ["A_push_power", "B_push_hyp", "C_leg_day"]⟩, 1) :=
  (cycle_closes_exactly_once ["A_push_power", "B_push_hyp", "C_leg_day"]
    (by decide) (by decide)).1

/-- Claim C3: with the default configuration the client-side selection is all
six mandatory catalog keys, including C_leg_day and D_core_circuit; but the
backend closure check (`checkCycleCompletion` and the list inside
`updateCycleProgress`) hardcodes only the four original keys, so the
backend closes a cycle in which C_leg_day and D_core_circuit were never
completed, contradicting the catalog's mandatory flags. -/
theorem backend_closure_misses_C_and_D :
    selectedOf DEFAULT_TEMPLATES (defaultIncludeInAnalysis DEFAULT_TEMPLATES) =
      ["A_push_power", "A_pull_width", "B_push_hyp", "B_pull_strength",
       "C_leg_day", "D_core_circuit"] ∧
    checkCycleCompletion
      ⟨1, ["A_push_power", "A_pull_width", "B_push_hyp", "B_pull_strength"], []⟩ = true ∧
    "C_leg_day" ∉
      (⟨1, ["A_push_power", "A_pull_width", "B_push_hyp", "B_pull_strength"], []⟩ :
        BackendCycle).completedWorkouts ∧
    "C_leg_day" ∈ (DEFAULT_TEMPLATES.filter (·.mandatory)).map (·.key) ∧
    (updateCycleProgressDb
      ⟨[], some ⟨1, ["A_push_power", "A_pull_width", "B_push_hyp"], ["B_pull_strength"]⟩,
        [], [], none⟩ "B_pull_strength").2 = true := by
  refine ⟨by decide, by decide, by decide, by decide, by decide⟩

/-- Claim C4: the selection-change step of the cycle effect resets
completedWorkoutKeys to empty and installs the new selection whenever the
new selected list differs by value from the stored one (regardless of what
was already completed), and leaves the state untouched when the lists are
equal by value. -/
theorem selection_change_reset :
    ∀ (sel : List String) (cur : CycleLS),
      (sel ≠ cur.selectedWorkouts → applySelectionChange sel cur = ⟨[], sel⟩) ∧
      (sel = cur.selectedWorkouts →
        applySelectionChange sel cur = cur ∧
        (applySelectionChange sel cur).completed = cur.completed) := by
  intro sel cur
  constructor
  · intro h
    unfold applySelectionChange
    rw [if_neg (fun hh => h hh.symm)]
  · intro h
    unfold applySelectionChange
    rw [if_pos h.symm]
    exact ⟨rfl, rfl⟩

/-- Claim C4 witness: a changed selection wipes the completed key even though
it was completed under the old selection; an unchanged selection keeps it. -/
theorem selection_change_reset_witness :
    applySelectionChange ["A_push_power", "B_push_hyp"]
        ⟨["A_pull_width"], ["A_push_power", "A_pull_width"]⟩ =
      ⟨[], ["A_push_power", "B_push_hyp"]⟩ ∧
    applySelectionChange ["A_push_power", "A_pull_width"]
        ⟨["A_pull_width"], ["A_push_power", "A_pull_width"]⟩ =
      ⟨["A_pull_width"], ["A_push_power", "A_pull_width"]⟩ :=
  ⟨(selection_change_reset ["A_push_power", "B_push_hyp"]
      ⟨["A_pull_width"], ["A_push_power", "A_pull_width"]⟩).1 (by decide),
   ((selection_change_reset ["A_push_power", "A_pull_width"]
      ⟨["A_pull_width"], ["A_push_power", "A_pull_width"]⟩).2 (by decide)).1⟩

/-- Claim C5: processing a workout-completion event for a key already in
completedWorkoutKeys is a no-op in both trackers: the client effect writes
nothing back and emits no closure, and the backend
`updateCycleProgress` returns without modifying the store and reports
no cycle completion. -/
theorem duplicate_completion_noop :
    ∀ (sel : List String) (k : String) (st : CycleLS) (cyc : BackendCycle) (db : Db),
      (st.selectedWorkouts = sel → k ∈ st.completed →
        cycleStepKey sel k (some st) = (some st, false)) ∧
      (db.currentCycle = some cyc → k ∈ cyc.completedWorkouts →
        updateCycleProgressDb db k = (db, false)) := by
  intro sel k st cyc db
  constructor
  · intro hsel hk
    unfold cycleStepKey applySelectionChange
    simp [hsel, hk]
  · intro hdb hk
    unfold updateCycleProgressDb getCurrentCycleDb
    rw [hdb]
    simp [hk]

/-- Claim C5 witness: a duplicate completion of A_push_power leaves both the
client state and the backend store unchanged, with no closure. -/
theorem duplicate_completion_noop_witness :
    cycleStepKey ["A_push_power", "B_push_hyp"] "A_push_power"
        (some ⟨["A_push_power"], ["A_push_power", "B_push_hyp"]⟩) =
      (some ⟨["A_push_power"], ["A_push_power", "B_push_hyp"]⟩, false) ∧
    updateCycleProgressDb ⟨[], some ⟨1, ["A_push_power"], ["A_pull_width"]⟩, [], [], none⟩
        "A_push_power" =
      (⟨[], some ⟨1, ["A_push_power"], ["A_pull_width"]⟩, [], [], none⟩, false) :=
  ⟨(duplicate_completion_noop ["A_push_power", "B_push_hyp"] "A_push_power"
      ⟨["A_push_power"], ["A_push_power", "B_push_hyp"]⟩ ⟨1, [], []⟩
      ⟨[], none, [], [], none⟩).1 rfl (by decide),
   (duplicate_completion_noop [] "A_push_power" ⟨[], []⟩
      ⟨1, ["A_push_power"], ["A_pull_width"]⟩
      ⟨[], some ⟨1, ["A_push_power"], ["A_pull_width"]⟩, [], [], none⟩).2 rfl (by decide)⟩

/-- Claim C6 counterexample: the backend tracker does not preserve the
inclusion completedWorkoutKeys ⊆ selectedWorkoutKeys.  Its only selection
analog is the hardcoded mandatory list (also the initial remainingWorkouts
of `ItemSchemas.currentCycle`), and `updateCycleProgress` adds any
non-optional template key without a membership check: completing
C_leg_day on a fresh backend cycle stores completedWorkouts = [C_leg_day]
although C_leg_day is not in that list. -/
theorem backend_violates_inclusion :
    (updateCycleProgressDb ⟨[], some (currentCycleItem 1), [], [], none⟩
        "C_leg_day").1.currentCycle =
      some ⟨1, ["C_leg_day"], mandatoryWorkouts⟩ ∧
    ¬ ("C_leg_day" ∈ mandatoryWorkouts) := by
  refine ⟨by decide, by decide⟩

/-- Claim C6 (amended): the inclusion completedWorkoutKeys ⊆
selectedWorkoutKeys is an invariant of the client-side cycle tracker: it
holds for the initial/reset state and is preserved by every run of the
cycle completion effect (for any selection configuration and any completed
template of the catalog); the backend tracker does not enforce it. -/
theorem client_inclusion_invariant :
    ∀ (templates : List WorkoutTemplate) (includeMap : String → Option Bool)
      (tmpl : WorkoutTemplate) (stored : Option CycleLS),
      tmpl ∈ templates → cycleInv stored →
      cycleInv (cycleEffect templates includeMap tmpl stored).1 ∧
      cycleInv (some ⟨[], selectedOf templates includeMap⟩) := by
  intro templates includeMap tmpl stored ht hInv
  refine ⟨?_, by simp [cycleInv]⟩
  unfold cycleEffect
  by_cases hinc : includedPred includeMap tmpl = true
  · simp only [hinc, if_true]
    have hk : tmpl.key ∈ selectedOf templates includeMap := key_mem_selectedOf ht hinc
    set sel := selectedOf templates includeMap with hsel
    unfold cycleStepKey applySelectionChange
    cases stored with
    | none =>
      simp only [Option.getD_none]
      split_ifs with hchg hdup hall hdup hall
      · exact hInv
      · simp [cycleInv]
      · intro x hx
        simp only [List.nil_append, List.mem_singleton] at hx
        subst hx; exact hk
      · exact hInv
      · simp [cycleInv]
      · intro x hx
        simp only [List.nil_append, List.mem_singleton] at hx
        subst hx; exact hk
    | some st =>
      simp only [Option.getD_some]
      split_ifs with hchg hdup hall hdup hall
      · exact hInv
      · simp [cycleInv]
      · intro x hx
        rcases List.mem_append.mp hx with h | h
        · exact hInv x h
        · simp only [List.mem_singleton] at h
          subst h
          rw [hchg]
          exact hk
      · exact hInv
      · simp [cycleInv]
      · intro x hx
        simp only [List.nil_append, List.mem_singleton] at hx
        subst hx; exact hk
  · rw [if_neg hinc]
    exact hInv

/-- Claim C6 witness: the invariant is preserved when the first catalog
template is completed starting from a missing stored cycle record, under
the default selection. -/
theorem client_inclusion_invariant_witness :
    cycleInv (cycleEffect DEFAULT_TEMPLATES (defaultIncludeInAnalysis DEFAULT_TEMPLATES)
        templateA none).1 ∧
    cycleInv (some ⟨[], selectedOf DEFAULT_TEMPLATES
        (defaultIncludeInAnalysis DEFAULT_TEMPLATES)⟩) :=
  client_inclusion_invariant DEFAULT_TEMPLATES (defaultIncludeInAnalysis DEFAULT_TEMPLATES)
    templateA none (by decide) True.intro

/-- Claim C7: the trend computation maps every sequence of length < 2 to
stable, and otherwise compares the arithmetic means of the first
floor(n/2) values and the remaining values: increasing iff the second-half
mean exceeds the first-half mean by more than 1/2, decreasing iff the
first-half mean exceeds the second-half mean by more than 1/2, stable
otherwise; with the four example sequences evaluated. -/
theorem trend_characterization :
    (∀ values : List ℚ,
      (calculateTrend values = .increasing ↔
        2 ≤ values.length ∧
        1/2 < mean (values.drop (values.length / 2)) -
          mean (values.take (values.length / 2))) ∧
      (calculateTrend values = .decreasing ↔
        2 ≤ values.length ∧
        1/2 < mean (values.take (values.length / 2)) -
          mean (values.drop (values.length / 2))) ∧
      (values.length < 2 → calculateTrend values = .stable) ∧
      (calculateTrend values = .stable ↔
        values.length < 2 ∨
        (¬ 1/2 < mean (values.drop (values.length / 2)) -
            mean (values.take (values.length / 2)) ∧
         ¬ 1/2 < mean (values.take (values.length / 2)) -
            mean (values.drop (values.length / 2))))) ∧
    calculateTrend [6, 6, 8, 9] = .increasing ∧
    calculateTrend [9, 8, 6, 6] = .decreasing ∧
    calculateTrend [7] = .stable ∧
    calculateTrend [7, 7] = .stable := by
  constructor
  · intro values
    rw [calculateTrend_eq]
    split_ifs with h1 h2 h3 <;>
      refine ⟨?_, ?_, ?_, ?_⟩ <;>
      simp_all <;>
      first
        | omega
        | linarith
  · refine ⟨?_, ?_, ?_, ?_⟩ <;> (rw [calculateTrend_eq]; norm_num [mean])

/-- Claim C7 witness: the characterization applied to the singleton sequence
discharges its length hypothesis and yields stable. -/
theorem trend_characterization_witness :
    calculateTrend [7] = .stable :=
  (trend_characterization.1 [7]).2.2.1 (by decide)

/-- Claim C8: the response parser is total, always returning either a parsed
result or the fixed degraded record; whenever both parse attempts fail
(match found but unparseable, or no match and the full text unparseable)
it returns the degraded record with fatigue level moderate, progress rate
optimal, a summary indicating parse failure, and the raw response text
preserved. -/
theorem parse_failure_degrades :
    ∀ (α : Type) (jsonMatch : String → Option String) (parseJson : String → Option α)
      (responseText : String),
      ((∃ a, parseClaudeResponse jsonMatch parseJson responseText = .parsed a) ∨
        parseClaudeResponse jsonMatch parseJson responseText =
          .degraded (degradedResult responseText)) ∧
      ((∀ m, jsonMatch responseText = some m → parseJson m = none) →
        (jsonMatch responseText = none → parseJson responseText = none) →
        parseClaudeResponse jsonMatch parseJson responseText =
          .degraded (degradedResult responseText)) ∧
      (degradedResult responseText).overall_assessment.fatigue_level = "moderate" ∧
      (degradedResult responseText).overall_assessment.progress_rate = "optimal" ∧
      (degradedResult responseText).overall_assessment.summary =
        "Analysis completed but response parsing failed" ∧
      (degradedResult responseText).raw_response = responseText := by
  intro α jsonMatch parseJson responseText
  refine ⟨?_, ?_, rfl, rfl, rfl, rfl⟩
  · unfold parseClaudeResponse
    cases hm : jsonMatch responseText with
    | some m => cases hp : parseJson m <;> simp [hp]
    | none => cases hp : parseJson responseText <;> simp [hp]
  · intro h1 h2
    unfold parseClaudeResponse
    cases hm : jsonMatch responseText with
    | some m => simp [h1 m hm]
    | none => simp [h2 hm]

/-- Claim C8 witness: a free-text response with no extractable JSON yields the
degraded record rather than an error. -/
theorem parse_failure_witness :
    parseClaudeResponse (α := Unit) (fun _ => none) (fun _ => none) "no json here" =
      .degraded (degradedResult "no json here") :=
  (parse_failure_degrades Unit (fun _ => none) (fun _ => none) "no json here").2.1
    (by simp) (by simp)

/-- Claim C9: the classifier is a total function into the four tracking types;
any name matching a WeightedDuration entry classifies as weighted_duration
(so never Bodyweight or Duration), and a name matching none of the three
lists defaults to weighted. -/
theorem classify_total_and_wd_precedence :
    (∀ name : String,
      getExerciseType name = .weighted_duration ∨ getExerciseType name = .duration ∨
      getExerciseType name = .bodyweight ∨ getExerciseType name = .weighted) ∧
    (∀ name : String,
      WEIGHTED_DURATION_EXERCISES.any (fun ex => jsIncludes name ex) = true →
      getExerciseType name = .weighted_duration) ∧
    (∀ name : String,
      WEIGHTED_DURATION_EXERCISES.any (fun ex => jsIncludes name ex) = false →
      DURATION_BASED_EXERCISES.any (fun ex => jsIncludes name ex) = false →
      BODYWEIGHT_EXERCISES.any (fun ex => jsIncludes name ex) = false →
      getExerciseType name = .weighted) := by
  refine ⟨?_, ?_, ?_⟩ <;> intro name
  · unfold getExerciseType; split_ifs <;> simp
  · intro h; simp [getExerciseType, h]
  · intro h1 h2 h3; simp [getExerciseType, h1, h2, h3]

/-- Claim C9 witness: a WeightedDuration-list name classifies as
weighted_duration and an unlisted name defaults to weighted. -/
theorem classify_witness :
    getExerciseType "Suitcase Carry" = .weighted_duration ∧
    getExerciseType "Barbell Bench Press" = .weighted :=
  ⟨classify_total_and_wd_precedence.2.1 "Suitcase Carry" (by decide),
   classify_total_and_wd_precedence.2.2 "Barbell Bench Press"
     (by decide) (by decide) (by decide)⟩

/-- Claim C10: saving a workout with isOptional = true persists the workout
record and changes nothing else: the current cycle record, the cycle
archives, the stored analyses and the suggestions are all untouched, and
no analysis is triggered, for every request and store state. -/
theorem optional_save_leaves_cycle_untouched :
    ∀ (analyze : Db → AnalysisPayload) (db : Db) (req : SaveWorkoutRequest),
      req.isOptional = true →
      postWorkouts analyze db req =
        ({ db with workouts := mkWorkoutItem req :: db.workouts }, false) ∧
      (postWorkouts analyze db req).1.currentCycle = db.currentCycle ∧
      (postWorkouts analyze db req).1.cycleArchives = db.cycleArchives ∧
      (postWorkouts analyze db req).1.analyses = db.analyses ∧
      (postWorkouts analyze db req).1.suggestions = db.suggestions ∧
      (postWorkouts analyze db req).2 = false := by
  intro analyze db req h
  have hmain : postWorkouts analyze db req =
      ({ db with workouts := mkWorkoutItem req :: db.workouts }, false) := by
    simp [postWorkouts, saveWorkoutSvc, h]
  refine ⟨hmain, ?_, ?_, ?_, ?_, ?_⟩ <;> rw [hmain]

/-- Claim C10 witness: an optional save of C_leg_day on an empty store adds
only the workout record and triggers nothing. -/
theorem optional_save_witness :
    postWorkouts (fun _ => ⟨"", none⟩) ⟨[], none, [], [], none⟩
        ⟨"C_leg_day", "2025-08-25", "180", "", [], [], true⟩ =
      (⟨[mkWorkoutItem ⟨"C_leg_day", "2025-08-25", "180", "", [], [], true⟩],
        none, [], [], none⟩, false) :=
  (optional_save_leaves_cycle_untouched (fun _ => ⟨"", none⟩) ⟨[], none, [], [], none⟩
    ⟨"C_leg_day", "2025-08-25", "180", "", [], [], true⟩ rfl).1

end FitForge
